import Mathlib

/-!
Verification of the Lisp interpreter in `src/lib/examples.ts` (`evaluateLisp`).

The TypeScript interpreter is shallowly embedded below.  Design notes on the
translation:

* The host union type `LispValue` (number | string | boolean | array |
  function | null | undefined) becomes the inductive `Value`.  Crucially, the
  host uses ONE string type for both symbols and string-literal contents, so
  the embedding likewise has a single `Value.str` constructor used for both.
  Host `null` and `undefined` are conflated into `Value.null` (the source
  normalises `undefined` results to `null` and prints both as `NIL`; the two
  are distinguishable only in error-message texts no verified program hits).
* Host numbers are IEEE doubles; every verified program computes only with
  small integers, on which double arithmetic is exact, so numbers are
  modelled as `Int`.
* Environments in the source are plain mutable JS objects, flat-copied with
  spread (there is no parent chain).  The embedding uses a heap
  (`State.heap`) of association-list frames addressed by index; index 0 is
  `globalEnv`, index 1 the `env` object returned by `createEnvironment`
  (after `Object.assign(globalEnv, env)` both hold the same bindings but are
  distinct objects).  Closures capture the index of their defining frame,
  mirroring JS closures capturing the object reference.
* Recursion in `evaluate` is not structural, so the evaluator takes a fuel
  parameter and is defined by structural recursion on fuel; loops over
  argument lists are separate structurally recursive helpers parameterised by
  the evaluator so that all definitions reduce by `rfl`.
* Builtins carried by the environment: the subset that the verified claim
  programs can reach (arithmetic, comparison, core list operations, printing
  and `format`).  Builtins absent from this subset (`mod`, `sqrt`, `funcall`,
  `mapcar`, `eq`, `member`, the predicates, `read-line`, `exit`, ...) are
  observable only by programs that mention their names, which no verified
  program does; `setf`/`case`/`dolist`/`dotimes` special forms are likewise
  not exercised by any claim and are omitted, which only affects programs
  containing those head symbols.
* `prototype`-inherited JS object keys (`toString` etc.) are visible to the
  source's `in`-operator lookups; no verified program uses such a name, and
  frame lookup here is plain association-list lookup.
-/

/-- Character constants used by the lexer (double quote, backslash, single
quote), named to keep the tokenizer readable. -/
def dqChar : Char := Char.ofNat 34

def bsChar : Char := Char.ofNat 92

def quChar : Char := Char.ofNat 39

/-- The value type of the interpreter, mirroring the host union `LispValue`.
`str` doubles as symbol and string content, exactly as in the host.  A
`closure` records the tag of the form that created it (only used in the
parameter-type error message), the raw parameter list, the body forms and the
heap index of the captured environment object. -/
inductive Value where
  | num (n : Int)
  | str (s : String)
  | bool (b : Bool)
  | list (elems : List Value)
  | closure (tag : String) (params : List Value) (body : List Value) (envRef : Nat)
  | builtin (name : String)
  | null

/-- Interpreter state: the heap of environment objects (frames) plus the
output buffer (`outputBuffer` in the source), in push order. -/
structure State where
  heap : List (List (String × Value))
  out : List String

/-- JS `===` comparison of a value against a string literal, as used for
special-form dispatch (`op === "quote"` etc.). -/
def isSym (v : Value) (s : String) : Bool :=
  match v with
  | .str s' => s' = s
  | _ => false

/-- Association-list lookup in one frame (JS property read on the env
object). -/
def frameGet : List (String × Value) → String → Option Value
  | [], _ => none
  | (k, v) :: rest, s => if k = s then some v else frameGet rest s

/-- Association-list update in one frame (JS property write). -/
def frameSet : List (String × Value) → String → Value → List (String × Value)
  | [], k, v => [(k, v)]
  | (k', v') :: rest, k, v =>
      if k' = k then (k, v) :: rest else (k', v') :: frameSet rest k v

/-- Read the frame at a heap index. -/
def getFrame (st : State) (ref : Nat) : List (String × Value) :=
  (st.heap.get? ref).getD []

/-- Write a binding into the frame at a heap index. -/
def setVar (st : State) (ref : Nat) (k : String) (v : Value) : State :=
  { st with heap := st.heap.set ref (frameSet (getFrame st ref) k v) }

/-- Allocate a fresh frame (models `{ ...env }` creating a new JS object);
returns its index. -/
def allocFrame (st : State) (f : List (String × Value)) : Nat × State :=
  (st.heap.length, { st with heap := st.heap ++ [f] })

/-- Append one line to the output buffer. -/
def pushOut (st : State) (line : String) : State :=
  { st with out := st.out ++ [line] }

/-- JS truthiness (`ToBoolean`), used by `if`/`cond` conditions and the `!!`
coercion in `and`/`or`: `false`, `null`/`undefined`, the number `0` and the
empty string are falsy; arrays (including the empty list) and functions are
always truthy.  (Host `NaN` is also falsy but cannot arise in the integer
fragment modelled here.) -/
def truthy : Value → Bool
  | .num n => n != 0
  | .str s => s != ""
  | .bool b => b
  | .list _ => true
  | .closure _ _ _ _ => true
  | .builtin _ => true
  | .null => false

/-- Depth bound for the printers below; the printed values of every verified
program are far shallower, so the bound is never hit there. -/
def formatDepth : Nat := 1000

/-- `formatLispValue` from the source, with an explicit depth so that the
definition is structurally recursive (hence kernel-reducible): `null` and the
empty list print as `NIL`, lists print parenthesised and space-joined,
functions as `#<FUNCTION>`, strings raw, numbers and booleans via the host's
default formatting (exact on the integers used here). -/
def formatV : Nat → Value → String
  | _, .null => "NIL"
  | _, .num n => toString n
  | _, .bool b => if b then "true" else "false"
  | _, .str s => s
  | _, .closure _ _ _ _ => "#<FUNCTION>"
  | _, .builtin _ => "#<FUNCTION>"
  | _, .list [] => "NIL"
  | 0, .list (_ :: _) => ""
  | fuel+1, .list (x :: xs) =>
      "(" ++ String.intercalate " " ((x :: xs).map (fun v => formatV fuel v)) ++ ")"

def formatLispValue (v : Value) : String := formatV formatDepth v

/-- JS template-literal stringification as used in error messages
(`Unknown symbol: X`, `Not a procedure: X`, `Cannot evaluate: X`).  The
boolean flag marks array-element position, where `null` renders empty.
Functions render as their source text in JS, which is not modelled (no
verified program evaluates a bare function value). -/
def jsTemplateV : Nat → Bool → Value → String
  | _, _, .str s => s
  | _, _, .num n => toString n
  | _, _, .bool b => if b then "true" else "false"
  | _, inArr, .null => if inArr then "" else "null"
  | _, _, .closure _ _ _ _ => "#<function>"
  | _, _, .builtin _ => "#<function>"
  | 0, _, .list _ => ""
  | fuel+1, _, .list l =>
      String.intercalate "," (l.map (fun v => jsTemplateV fuel true v))

def jsTemplate (v : Value) : String := jsTemplateV formatDepth false v

/-! ## Lexer (`tokenize` in the source) -/

/-- JS `/\s/` on the characters appearing in the verified programs (space and
newline; Lean's `isWhitespace` also accepts tab and carriage return, as does
`\s`). -/
def jsWs (c : Char) : Bool := c.isWhitespace

/-- A character that terminates an atom: the class `[\s()'"]`. -/
def atomBreak (c : Char) : Bool :=
  jsWs c || c = '(' || c = ')' || c = quChar || c = dqChar

/-- Scan the remainder of a string literal after its opening quote, keeping
escape pairs verbatim (the source only skips over `\x` when searching for the
closing quote; it does not decode).  Returns the raw chars before the closing
quote and the rest of the input, or `none` when unterminated. -/
def strScan : List Char → Option (List Char × List Char)
  | [] => none
  | c :: rest =>
      if c = dqChar then some ([], rest)
      else if c = bsChar then
        match rest with
        | [] => none
        | c2 :: rest2 =>
            match strScan rest2 with
            | none => none
            | some (tok, r) => some (c :: c2 :: tok, r)
      else
        match strScan rest with
        | none => none
        | some (tok, r) => some (c :: tok, r)

/-- The main lexer loop.  Faithful to the source, including its comment
check, which compares `str.substring(i, i + 2)` — a TWO-character slice —
against the one-character string `";"`: the branch is taken only when the
semicolon is the final character of the input, so `;` does not in general
start a comment. -/
def tokLoop : Nat → List Char → Except String (List String)
  | 0, _ => .error "Out of fuel"
  | fuel+1, chars0 =>
      let chars := chars0.dropWhile jsWs
      match chars with
      | [] => .ok []
      | c :: rest =>
          if String.mk (chars.take 2) = ";" then
            tokLoop fuel (chars.dropWhile (fun ch => ch ≠ '\n'))
          else if c = quChar then
            match tokLoop fuel rest with
            | .error e => .error e
            | .ok ts => .ok (String.singleton quChar :: ts)
          else if c = '(' || c = ')' then
            match tokLoop fuel rest with
            | .error e => .error e
            | .ok ts => .ok (String.singleton c :: ts)
          else if c = dqChar then
            match strScan rest with
            | some (tokChars, rest') =>
                match tokLoop fuel rest' with
                | .error e => .error e
                | .ok ts => .ok (String.mk (dqChar :: (tokChars ++ [dqChar])) :: ts)
            | none => .error "Unterminated string literal"
          else
            let atomChars := chars.takeWhile (fun ch => ¬ atomBreak ch)
            let rest' := chars.drop atomChars.length
            match tokLoop fuel rest' with
            | .error e => .error e
            | .ok ts =>
                if atomChars.length > 0 then .ok (String.mk atomChars :: ts)
                else .ok ts

/-- `tokenize`: every loop iteration consumes at least one character, so
`length + 1` fuel always suffices. -/
def tokenize (s : String) : Except String (List String) :=
  tokLoop (s.length + 1) s.data

/-! ## Reader (`parse` in the source) -/

/-- Does the string start with the given character? (`startsWith`). -/
def strStarts (s : String) (c : Char) : Bool :=
  match s.data with
  | [] => false
  | c' :: _ => c' = c

/-- Does the string end with the given character? (`endsWith`). -/
def strEnds (s : String) (c : Char) : Bool :=
  match s.data.getLast? with
  | none => false
  | some c' => c' = c

/-- `token.slice(1, -1)`: strip the first and last character. -/
def strInner (s : String) : String :=
  String.mk ((s.data.drop 1).dropLast)

/-- Accumulating decimal-digit parser. -/
def digitsAux : List Char → Nat → Option Nat
  | [], acc => some acc
  | c :: rest, acc =>
      if c.isDigit then digitsAux rest (acc * 10 + (c.toNat - 48)) else none

/-- A non-empty run of decimal digits, or `none`. -/
def digitsNum : List Char → Option Nat
  | [] => none
  | chs => digitsAux chs 0

/-- `Number(token)` restricted to the token shapes the verified programs
contain: decimal integer tokens (optionally negative) parse, everything else
is `NaN` (`none`).  (Host oddities such as `Number("") = 0`, hex or float
literals never arise: the lexer emits no empty atoms and the programs contain
only plain integer numerals and symbolic atoms.) -/
def jsNumber? (s : String) : Option Int :=
  match s.data with
  | '-' :: rest => (digitsNum rest).map (fun n => -(n : Int))
  | chs => (digitsNum chs).map (fun n => (n : Int))

/-- One reader step over the token stream: returns the parsed form and the
remaining tokens.  The list loop is `parseItemsG` below. -/
def parseItemsG (p : List String → Except String (Value × List String)) :
    Nat → List String → List Value → Except String (Value × List String)
  | 0, _, _ => .error "Out of fuel"
  | fuel+1, tokens, acc =>
      match tokens with
      | [] => .error "Missing closing parenthesis"
      | tok :: rest =>
          if tok = ")" then .ok (.list acc.reverse, rest)
          else
            match p tokens with
            | .error e => .error e
            | .ok (v, rest') => parseItemsG p fuel rest' (v :: acc)

def parseAux : Nat → List String → Except String (Value × List String)
  | 0, _ => .error "Out of fuel"
  | fuel+1, tokens =>
      match tokens with
      | [] => .error "Unexpected EOF"
      | tok :: rest =>
          if tok = String.singleton quChar then
            match parseAux fuel rest with
            | .error e => .error e
            | .ok (v, r) => .ok (.list [.str "quote", v], r)
          else if tok = "(" then
            parseItemsG (fun ts => parseAux fuel ts) fuel rest []
          else if tok = ")" then .error "Unexpected closing parenthesis"
          else if strStarts tok dqChar && strEnds tok dqChar then
            .ok (.str (strInner tok), rest)
          else if tok = "nil" then .ok (.list [], rest)
          else if tok = "t" then .ok (.bool true, rest)
          else
            match jsNumber? tok with
            | some n => .ok (.num n, rest)
            | none => .ok (.str tok, rest)

/-! ## Builtin operator library (`createEnvironment` in the source) -/

/-- Check/extract: all arguments are numbers (`args.every(a => typeof a === "number")`). -/
def asNums? : List Value → Option (List Int)
  | [] => some []
  | .num n :: rest =>
      match asNums? rest with
      | some ns => some (n :: ns)
      | none => none
  | _ :: _ => none

/-- Check/extract: all arguments are lists (`args.every(Array.isArray)`). -/
def asLists? : List Value → Option (List (List Value))
  | [] => some []
  | .list l :: rest =>
      match asLists? rest with
      | some ls => some (l :: ls)
      | none => none
  | _ :: _ => none

/-- The `%s`/`%d` substitution of `format`: the source runs a global regex
replace where each match consumes the next argument; an exhausted argument
list substitutes `undefined`, which prints as `NIL`. -/
def fmtSubst : List Char → List Value → String
  | [], _ => ""
  | '%' :: 's' :: rest, vs =>
      formatLispValue (vs.headD .null) ++ fmtSubst rest vs.tail
  | '%' :: 'd' :: rest, vs =>
      formatLispValue (vs.headD .null) ++ fmtSubst rest vs.tail
  | c :: rest, vs => String.singleton c ++ fmtSubst rest vs

/-- The embedded builtins, by name, applied to already-evaluated arguments.
Error strings are verbatim from the source; errors are unwrapped here and
wrapped with `Error in procedure <op>: ...` at the application site.  The
`-` of no arguments models the host `reduce` of an empty array throwing. -/
def applyBuiltin (name : String) (args : List Value) (st : State) :
    Except String (Value × State) :=
  match name with
  | "+" =>
      match asNums? args with
      | some ns => .ok (.num (ns.foldl (fun a b => a + b) 0), st)
      | none => .error "+: All arguments must be numbers"
  | "-" =>
      match asNums? args with
      | some [] => .error "Reduce of empty array with no initial value"
      | some [x] => .ok (.num (-x), st)
      | some (x :: rest) => .ok (.num (rest.foldl (fun a b => a - b) x), st)
      | none => .error "-: All arguments must be numbers"
  | "*" =>
      match asNums? args with
      | some ns => .ok (.num (ns.foldl (fun a b => a * b) 1), st)
      | none => .error "*: All arguments must be numbers"
  | "=" =>
      match args with
      | [a, b] =>
          match a, b with
          | .num x, .num y => .ok (.bool (x == y), st)
          | _, _ => .error "=: Both arguments must be numbers"
      | _ => .error "=: Expected exactly 2 arguments"
  | "<" =>
      match args with
      | [a, b] =>
          match a, b with
          | .num x, .num y => .ok (.bool (decide (x < y)), st)
          | _, _ => .error "<: Both arguments must be numbers"
      | _ => .error "<: Expected exactly 2 arguments"
  | ">" =>
      match args with
      | [a, b] =>
          match a, b with
          | .num x, .num y => .ok (.bool (decide (y < x)), st)
          | _, _ => .error ">: Both arguments must be numbers"
      | _ => .error ">: Expected exactly 2 arguments"
  | "car" =>
      match args with
      | [a] =>
          match a with
          | .list [] => .error "car: Empty list"
          | .list (x :: _) => .ok (x, st)
          | _ => .error "car: Expected list"
      | _ => .error "car: Expected exactly 1 argument"
  | "cdr" =>
      match args with
      | [a] =>
          match a with
          | .list [] => .error "cdr: Empty list"
          | .list (_ :: t) => .ok (.list t, st)
          | _ => .error "cdr: Expected list"
      | _ => .error "cdr: Expected exactly 1 argument"
  | "cons" =>
      match args with
      | [item, l] =>
          match l with
          | .list elems => .ok (.list (item :: elems), st)
          | _ => .error "cons: Second argument must be a list"
      | _ => .error "cons: Expected exactly 2 arguments"
  | "list" => .ok (.list args, st)
  | "append" =>
      match asLists? args with
      | some ls => .ok (.list ls.flatten, st)
      | none => .error "append: All arguments must be lists"
  | "reverse" =>
      match args with
      | [a] =>
          match a with
          | .list l => .ok (.list l.reverse, st)
          | _ => .error "reverse: Expected list"
      | _ => .error "reverse: Expected exactly 1 argument"
  | "not" =>
      match args with
      | [x] => .ok (.bool (! truthy x), st)
      | _ => .error "not: Expected exactly 1 argument"
  | "null" =>
      match args with
      | [x] =>
          match x with
          | .list [] => .ok (.bool true, st)
          | _ => .ok (.bool false, st)
      | _ => .error "null: Expected exactly 1 argument"
  | "print" =>
      .ok (args.getLastD .null,
           pushOut st (String.intercalate " " (args.map formatLispValue)))
  | "prin1" =>
      match args with
      | [x] => .ok (x, pushOut st (formatLispValue x))
      | _ => .error "prin1: Expected exactly 1 argument"
  | "format" =>
      match args with
      | stream :: fmtV :: rest =>
          match fmtV with
          | .str fs =>
              let result := fmtSubst fs.data rest
              if isSym stream "t" then .ok (.str result, pushOut st result)
              else .ok (.null, st)
          | _ => .error "format: Format string must be a string"
      | _ => .error "format: Expected at least 2 arguments"
  | _ => .error ("Unknown builtin: " ++ name)

/-! ## Evaluator (`evaluate` in the source) -/

/-- The type of the evaluator passed down to the loop helpers: state, frame
index, form. -/
abbrev EvalFn := State → Nat → Value → Except String (Value × State)

/-- Left-to-right evaluation of argument forms, collecting the values
(`args.map(arg => evaluate(arg, env))`). -/
def seqG (ev : EvalFn) : State → Nat → List Value → Except String (List Value × State)
  | st, _, [] => .ok ([], st)
  | st, ref, e :: rest =>
      match ev st ref e with
      | .error er => .error er
      | .ok (v, st') =>
          match seqG ev st' ref rest with
          | .error er => .error er
          | .ok (vs, st'') => .ok (v :: vs, st'')

/-- Evaluate forms in sequence, returning the last value (the repeated
`let result = null; for (...) result = evaluate(...); return result` idiom;
an empty sequence yields `null`). -/
def bodyG (ev : EvalFn) : State → Nat → List Value → Value → Except String (Value × State)
  | st, _, [], lastV => .ok (lastV, st)
  | st, ref, e :: rest, _ =>
      match ev st ref e with
      | .error er => .error er
      | .ok (v, st') => bodyG ev st' ref rest v

/-- The `or` loop: `result = !!evaluate(arg); if (result) return result` —
note it returns the COERCED boolean, never the operand value, and `false`
when all operands are falsy. -/
def orG (ev : EvalFn) : State → Nat → List Value → Except String (Value × State)
  | st, _, [] => .ok (.bool false, st)
  | st, ref, a :: rest =>
      match ev st ref a with
      | .error er => .error er
      | .ok (v, st') =>
          if truthy v then .ok (.bool true, st') else orG ev st' ref rest

/-- The `and` loop: returns `false` on the first falsy operand, else `true`
(the final `result` is the coercion of the last operand, which is truthy). -/
def andG (ev : EvalFn) : State → Nat → List Value → Except String (Value × State)
  | st, _, [] => .ok (.bool true, st)
  | st, ref, a :: rest =>
      match ev st ref a with
      | .error er => .error er
      | .ok (v, st') =>
          if truthy v then andG ev st' ref rest else .ok (.bool false, st')

/-- The `cond` clause loop. -/
def condG (ev : EvalFn) : State → Nat → List Value → Except String (Value × State)
  | st, _, [] => .ok (.null, st)
  | st, ref, clause :: rest =>
      match clause with
      | .list [] => .error "cond: Empty clause"
      | .list (test :: body) =>
          match ev st ref test with
          | .error er => .error er
          | .ok (tv, st') =>
              if truthy tv then
                match body with
                | [] => .ok (tv, st')
                | _ => bodyG ev st' ref body .null
              else condG ev st' ref rest
      | _ => .error "cond: Each clause must be a list"

/-- The `setq` pair loop (arity parity is checked before entry): the value is
evaluated BEFORE the symbol check, and each binding is written both into the
current frame and into frame 0 (`globalEnv`). -/
def setqG (ev : EvalFn) : State → Nat → List Value → Value → Except String (Value × State)
  | st, _, [], lastV => .ok (lastV, st)
  | st, ref, sym :: valExp :: rest, _ =>
      match ev st ref valExp with
      | .error er => .error er
      | .ok (v, st') =>
          match sym with
          | .str s => setqG ev (setVar (setVar st' ref s v) 0 s v) ref rest v
          | _ => .error "setq: Variable name must be a symbol"
  | _, _, [_], _ => .error "setq: Expected even number of arguments"

/-- The `let` binding loop: each binding's expression is evaluated in the
emerging local frame. -/
def letBindG (ev : EvalFn) : State → Nat → List Value → Except String State
  | st, _, [] => .ok st
  | st, lref, b :: rest =>
      match b with
      | .list [sym, valueExp] =>
          match sym with
          | .str s =>
              match ev st lref valueExp with
              | .error er => .error er
              | .ok (v, st') => letBindG ev (setVar st' lref s v) lref rest
          | _ => .error "let: Binding symbol must be a string"
      | _ => .error "let: Binding must be a list of [symbol, value]"

/-- Parameter binding on function entry: parameter `i` is bound to argument
`i` when present and to `null` (`NIL`) otherwise; surplus arguments are
ignored.  A non-symbol parameter raises (wrapped at the call site). -/
def bindParamsG (tag : String) : State → Nat → List Value → List Value → Except String State
  | st, _, [], _ => .ok st
  | st, lref, p :: ps, argsRem =>
      match p with
      | .str s =>
          bindParamsG tag (setVar st lref s (argsRem.headD .null)) lref ps argsRem.tail
      | _ => .error (tag ++ ": Parameters must be symbols")

/-- `do` variable-spec initialisation: inits are evaluated in the OUTER
frame, bindings written to the local frame; the step form defaults to the
variable symbol when the spec's third slot is falsy (`step || name`). -/
def doInitG (ev : EvalFn) :
    State → Nat → Nat → List Value → Except String (List String × List Value × State)
  | st, _, _, [] => .ok ([], [], st)
  | st, oref, lref, spec :: rest =>
      match spec with
      | .list specL =>
          match specL.headD .null with
          | .str name =>
              match ev st oref ((specL.get? 1).getD .null) with
              | .error er => .error er
              | .ok (v, st') =>
                  let stepV := (specL.get? 2).getD .null
                  let stepForm := if truthy stepV then stepV else Value.str name
                  match doInitG ev (setVar st' lref name v) oref lref rest with
                  | .error er => .error er
                  | .ok (names, steps, st'') =>
                      .ok (name :: names, stepForm :: steps, st'')
          | _ => .error "do: Variable name must be a symbol"
      | _ => .error "do: Variable specification must be a list"

/-- Parallel assignment of the step results
(`varNames.forEach((name, i) => localEnv[name] = newValues[i])`). -/
def setVarsPar : State → Nat → List String → List Value → State
  | st, _, [], _ => st
  | st, _, _ :: _, [] => st
  | st, lref, n :: ns, v :: vs => setVarsPar (setVar st lref n v) lref ns vs

/-- The `do` iteration loop: test the end form; when truthy evaluate the
result forms and return the last; otherwise run the body, then evaluate ALL
step forms against the pre-update frame (`stepForms.map(evaluate)`) before
any variable is reassigned. -/
def doLoopG (ev : EvalFn) :
    Nat → State → Nat → List String → List Value → List Value → List Value →
    Except String (Value × State)
  | 0, _, _, _, _, _, _ => .error "Out of fuel"
  | n+1, st, lref, names, steps, endTest, body =>
      match ev st lref (endTest.headD .null) with
      | .error er => .error er
      | .ok (tv, st1) =>
          if truthy tv then bodyG ev st1 lref endTest.tail .null
          else
            match bodyG ev st1 lref body .null with
            | .error er => .error er
            | .ok (_, st2) =>
                match seqG ev st2 lref steps with
                | .error er => .error er
                | .ok (vals, st3) =>
                    doLoopG ev n (setVarsPar st3 lref names vals) lref names steps endTest body

/-- One dispatch layer of `evaluate`: self-evaluating atoms (numbers,
booleans, and strings beginning with a double quote), symbol lookup in the
current frame, the empty list, special forms in source order, and procedure
application with the `Error in procedure <op>: <msg>` wrap around the call
itself (argument evaluation errors are NOT wrapped).  `ev` is the evaluator
at the next-smaller fuel. -/
def evalStep (ev : EvalFn) (fuel : Nat) (st : State) (ref : Nat) (exp : Value) :
    Except String (Value × State) :=
  match exp with
  | .num _ => .ok (exp, st)
  | .bool _ => .ok (exp, st)
  | .str s =>
      if strStarts s dqChar then .ok (exp, st)
      else
        match frameGet (getFrame st ref) s with
        | some v => .ok (v, st)
        | none => .error ("Unknown symbol: " ++ s)
  | .list [] => .ok (.list [], st)
  | .list (op :: args) =>
      if isSym op "quote" then
        match args with
        | [x] => .ok (x, st)
        | _ => .error "quote: Expected 1 argument"
      else if isSym op "defun" then
        match args with
        | name :: params :: body =>
            if body.isEmpty then .error "defun: Expected at least 3 arguments"
            else
              match name with
              | .str nm =>
                  match params with
                  | .list ps =>
                      let fn := Value.closure "defun" ps body ref
                      .ok (.str nm, setVar (setVar st ref nm fn) 0 nm fn)
                  | _ => .error "defun: Parameter list must be a list"
              | _ => .error "defun: Function name must be a symbol"
        | _ => .error "defun: Expected at least 3 arguments"
      else if isSym op "setq" then
        if args.length % 2 ≠ 0 then .error "setq: Expected even number of arguments"
        else setqG ev st ref args .null
      else if isSym op "if" then
        match args with
        | [c, t] =>
            match ev st ref c with
            | .error er => .error er
            | .ok (cv, st') => ev st' ref (if truthy cv then t else Value.null)
        | [c, t, e] =>
            match ev st ref c with
            | .error er => .error er
            | .ok (cv, st') => ev st' ref (if truthy cv then t else e)
        | _ => .error "if: Expected 2 or 3 arguments"
      else if isSym op "cond" then condG ev st ref args
      else if isSym op "lambda" then
        match args with
        | params :: body =>
            if body.isEmpty then .error "lambda: Expected at least 2 arguments"
            else
              match params with
              | .list ps => .ok (.closure "lambda" ps body ref, st)
              | _ => .error "lambda: First argument must be a list of parameters"
        | _ => .error "lambda: Expected at least 2 arguments"
      else if isSym op "let" then
        match args with
        | bindings :: body =>
            match bindings with
            | .list bs =>
                let (lref, st1) := allocFrame st (getFrame st ref)
                match letBindG ev st1 lref bs with
                | .error er => .error er
                | .ok st2 => bodyG ev st2 lref body .null
            | _ => .error "let: First argument must be a list of bindings"
        | _ => .error "let: Expected at least 1 argument"
      else if isSym op "begin" || isSym op "progn" then bodyG ev st ref args .null
      else if isSym op "do" then
        match args with
        | varSpecs :: endTest :: body =>
            match varSpecs, endTest with
            | .list specs, .list endL =>
                let (lref, st1) := allocFrame st (getFrame st ref)
                match doInitG ev st1 ref lref specs with
                | .error er => .error er
                | .ok (names, steps, st2) => doLoopG ev fuel st2 lref names steps endL body
            | .list _, _ => .error "do: Second argument must be an end test list"
            | _, _ => .error "do: First argument must be a list of variable specifications"
        | _ => .error "do: Expected at least 2 arguments"
      else if isSym op "eval" then
        match args with
        | [x] =>
            match ev st ref x with
            | .error er => .error er
            | .ok (f, st') => ev st' ref f
        | _ => .error "eval: Expected 1 argument"
      else if isSym op "and" then andG ev st ref args
      else if isSym op "or" then orG ev st ref args
      else
        match ev st ref op with
        | .error er => .error er
        | .ok (proc, st1) =>
            match seqG ev st1 ref args with
            | .error er => .error er
            | .ok (argVals, st2) =>
                match proc with
                | .builtin name =>
                    match applyBuiltin name argVals st2 with
                    | .ok r => .ok r
                    | .error msg =>
                        .error ("Error in procedure " ++ jsTemplate op ++ ": " ++ msg)
                | .closure tag params body cref =>
                    let (lref, st3) := allocFrame st2 (getFrame st2 cref)
                    match bindParamsG tag st3 lref params argVals with
                    | .error msg =>
                        .error ("Error in procedure " ++ jsTemplate op ++ ": " ++ msg)
                    | .ok st4 =>
                        match bodyG ev st4 lref body .null with
                        | .ok r => .ok r
                        | .error msg =>
                            .error ("Error in procedure " ++ jsTemplate op ++ ": " ++ msg)
                | _ => .error ("Not a procedure: " ++ jsTemplate op)
  | .closure _ _ _ _ => .error ("Cannot evaluate: " ++ jsTemplate exp)
  | .builtin _ => .error ("Cannot evaluate: " ++ jsTemplate exp)
  | .null => .error ("Cannot evaluate: " ++ jsTemplate Value.null)

/-- The fuelled evaluator; fuel only bounds recursion depth and loop trip
counts, mirroring the unbounded recursion of the source. -/
def evalV : Nat → EvalFn
  | 0, _, _, _ => .error "Out of fuel"
  | fuel+1, st, ref, exp => evalStep (fun st' r e => evalV fuel st' r e) fuel st ref exp

/-! ## Driver (`evaluateLisp` in the source) -/

/-- Names bound to builtin functions in `createEnvironment` (the embedded
subset; see the header note). -/
def builtinNames : List String :=
  ["+", "-", "*", "<", ">", "=", "car", "cdr", "cons", "list", "append",
   "reverse", "not", "null", "print", "prin1", "format"]

/-- The initial environment frame: builtins plus the constants `nil` (empty
list) and `t` (true). -/
def initFrame : List (String × Value) :=
  (builtinNames.map fun n => (n, Value.builtin n)) ++
    [("nil", Value.list []), ("t", Value.bool true)]

/-- Initial state: frame 0 is `globalEnv` (after `Object.assign(globalEnv,
env)`), frame 1 the `env` object evaluation runs in; they start with equal
contents but are distinct objects. -/
def initState : State := { heap := [initFrame, initFrame], out := [] }

/-- The driver loop: parse one top-level form, evaluate it in frame 1,
repeat; when the tokens are exhausted return the output buffer joined by
newlines. -/
def topLoop : Nat → List String → State → Except String String
  | 0, _, _ => .error "Out of fuel"
  | fuel+1, tokens, st =>
      match tokens with
      | [] => .ok (String.intercalate "\n" st.out)
      | _ =>
          match parseAux fuel tokens with
          | .error e => .error e
          | .ok (form, rest) =>
              match evalV fuel st 1 form with
              | .error e => .error e
              | .ok (_, st') => topLoop fuel rest st'

/-- `evaluateLisp(program)`: tokenize, return the empty string for an empty
token stream, otherwise evaluate all top-level forms and join the output
lines.  Thrown errors surface as `.error`; the output accumulated before an
error is discarded with the state. -/
def runProgram (fuel : Nat) (program : String) : Except String String :=
  match tokenize program with
  | .error e => .error e
  | .ok [] => .ok ""
  | .ok tokens => topLoop fuel tokens initState

/-! ## Claim theorems -/

/-- Claim C1 (code bug): a reader-produced string literal does NOT
self-evaluate.  The reader strips the surrounding quotes
(`token.slice(1, -1)`), while the evaluator's self-evaluation test demands a
LEADING double quote (`exp.startsWith('"')`) — a check whose only purpose is
string literals and which reader output can never satisfy, so the content is
looked up as a symbol and `(print "hello")` aborts with
`Unknown symbol: hello` instead of printing `hello`.  The three conjuncts
exhibit: the reader stripping the quotes, the (unreachable) self-evaluation
branch firing only on a quote-prefixed string, and the failing end-to-end
run. -/
theorem string_literal_symbol_lookup :
    parseAux 10 ["\"hello\""] = .ok (.str "hello", []) ∧
    evalV 10 initState 1 (.str "\"x") = .ok (.str "\"x", initState) ∧
    runProgram 1000 "(print \"hello\")" = .error "Unknown symbol: hello" :=
  ⟨rfl, rfl, rfl⟩

/-- Claim C2 (code bug): `;` does not begin a comment.  The lexer compares
`str.substring(i, i + 2)` — a two-character slice — against `";"`, so the
comment branch fires only when the semicolon is the last character of the
input.  A leading comment line is lexed as the atoms `;`, `comment`, … and
evaluation fails with `Unknown symbol: ;` instead of printing `1` (first two
conjuncts); the third conjunct shows the single case in which the branch does
fire. -/
theorem semicolon_comment_not_skipped :
    tokenize "; comment\n(print 1)" =
      .ok [";", "comment", "(", "print", "1", ")"] ∧
    runProgram 1000 "; comment\n(print 1)" = .error "Unknown symbol: ;" ∧
    tokenize "(print 1) ;" = .ok ["(", "print", "1", ")"] :=
  ⟨rfl, rfl, rfl⟩

/-- Claim C3 counterexample: a `setq` executed inside a function body is NOT
visible to later top-level forms — the program
`(defun f () (setq x 42)) (f) (print x)` aborts with `Unknown symbol: x`
instead of printing `42`.  The function call copies the environment object
(`{ ...env }`), `setq` writes that copy and the write-only `globalEnv`
record, and top-level lookup consults neither. -/
theorem setq_in_function_invisible :
    runProgram 1000 "(defun f () (setq x 42)) (f) (print x)" =
      .error "Unknown symbol: x" := rfl

/-- Claim C3 amended: `setq`/`defun` write the binding into the current
environment object and mirror it into the separate `globalEnv` record, but
that record is never consulted by symbol lookup, so the mirror is NOT
observable: a `setq` inside a function body is invisible to later top-level
forms (third conjunct).  Cross-frame visibility exists only through the
shared top-level environment object: a top-level `setq` is visible to later
top-level forms (first conjunct), and a function can call a helper `defun`ed
after it because the call-time frame copy snapshots the same live top-level
object (second conjunct). -/
theorem setq_defun_shared_env_amended :
    runProgram 1000 "(setq x 42) (print x)" = .ok "42" ∧
    runProgram 1000 "(defun g () (h)) (defun h () (print 7)) (g)" = .ok "7" ∧
    runProgram 1000 "(defun f () (setq x 42)) (f) (print x)" =
      .error "Unknown symbol: x" :=
  ⟨rfl, rfl, rfl⟩

/-- Claim C4 counterexample: a source-written `(format t "x: %d" 7)` does not
append a formatted line — it aborts with `Unknown symbol: x: %d`, because the
reader-stripped format string is evaluated as a symbol (see C1). -/
theorem format_t_literal_errors :
    runProgram 1000 "(format t \"x: %d\" 7)" = .error "Unknown symbol: x: %d" :=
  rfl

/-- Claim C4 amended: (i) a `(format t fmt …)` call with a string-literal
format aborts with `Unknown symbol` before `format` runs; (ii) the reader
turns the atom `t` into the boolean `true`, not a symbol; (iii) the `format`
builtin appends and returns the substituted line only when its first argument
is the host STRING `"t"` (which reader output never produces), substituting
each `%s`/`%d` with the next argument's printed form and `NIL` past the end;
(iv) with boolean `true` as the stream it appends nothing and returns
Null. -/
theorem format_amended :
    runProgram 1000 "(format t \"x: %d\" 7)" = .error "Unknown symbol: x: %d" ∧
    parseAux 10 ["t"] = .ok (.bool true, []) ∧
    applyBuiltin "format" [.str "t", .str "a %s %d", .num 5] initState =
      .ok (.str "a 5 NIL", pushOut initState "a 5 NIL") ∧
    applyBuiltin "format" [.bool true, .str "a %s %d", .num 5] initState =
      .ok (.null, initState) :=
  ⟨rfl, rfl, rfl, rfl⟩

/-- Claim C5 counterexample: `or` does not return the first truthy operand
VALUE — `(print (or (= 1 2) 5))` prints `true` (the boolean coercion), not
`5`. -/
theorem or_coerces_value :
    runProgram 1000 "(print (or (= 1 2) 5))" = .ok "true" := rfl

/-- Claim C5 amended: `or` evaluates its operands left-to-right,
short-circuits at the first truthy operand WITHOUT evaluating the rest
(second conjunct: the unbound `zzz` is never evaluated), and returns the
boolean `true` in that case and `false` when every operand is falsy — never
the operand value itself (first conjunct: any successful `or` result is the
boolean `true` or `false`). -/
theorem or_amended :
    (∀ (ev : EvalFn) (st : State) (ref : Nat) (args : List Value)
       (v : Value) (st' : State),
        orG ev st ref args = .ok (v, st') →
        v = Value.bool true ∨ v = Value.bool false) ∧
    runProgram 1000 "(print (or (= 1 2) 3 zzz))" = .ok "true" ∧
    runProgram 1000 "(print (or (= 1 2) 0))" = .ok "false" := by
  refine ⟨?_, rfl, rfl⟩
  intro ev st ref args
  induction args generalizing st with
  | nil =>
      intro v st' h
      simp only [orG] at h
      simp only [Except.ok.injEq, Prod.mk.injEq] at h
      exact Or.inr h.1.symm
  | cons a rest ih =>
      intro v st' h
      simp only [orG] at h
      cases hev : ev st ref a with
      | error e => rw [hev] at h; simp at h
      | ok p =>
          obtain ⟨v', st''⟩ := p
          rw [hev] at h
          by_cases ht : truthy v'
          · simp only [ht, if_true, Except.ok.injEq, Prod.mk.injEq] at h
            exact Or.inl h.1.symm
          · simp only [ht, if_false] at h
            exact ih st'' v st' h

/-- Witness for C5: instantiating the universal conjunct of `or_amended` at a
one-element operand list under an evaluator that returns the number 1. -/
theorem or_amended_witness :
    Value.bool true = Value.bool true ∨ Value.bool true = Value.bool false :=
  or_amended.1 (fun st _ _ => .ok (.num 1, st)) initState 1 [Value.num 1]
    (Value.bool true) initState rfl

/-- Claim C6 counterexample: it is not the case that only `false` is falsy in
`if` — the number `0` is falsy too: `(print (if 0 1 2))` prints `2`, whereas
the claim's falsy set would select the `then` branch and print `1`. -/
theorem zero_falsy_in_if :
    runProgram 1000 "(print (if 0 1 2))" = .ok "2" := rfl

/-- Claim C6 amended: the empty list is truthy for `if`, `cond`, `and` and
`or` — all four share the single host coercion `truthy`, under which every
list (empty included) is truthy — so `(if nil a b)` takes the `then` branch,
a `cond` clause with test `nil` is selected, and `nil` does not short-circuit
`and` (the run conjuncts).  But the falsy set is the host's, uniformly in all
four forms: `false`, Null, the number `0` and the empty string are falsy, not
`false` (plus Null) alone. -/
theorem empty_list_truthy_amended :
    (∀ l : List Value, truthy (Value.list l) = true) ∧
    truthy (Value.bool false) = false ∧
    truthy Value.null = false ∧
    truthy (Value.num 0) = false ∧
    truthy (Value.str "") = false ∧
    runProgram 1000 "(print (if nil 1 2))" = .ok "1" ∧
    runProgram 1000 "(print (cond (nil 1) (t 2)))" = .ok "1" ∧
    runProgram 1000 "(print (and nil 7))" = .ok "true" ∧
    runProgram 1000 "(print (or nil))" = .ok "true" :=
  ⟨fun _ => rfl, rfl, rfl, rfl, rfl, rfl, rfl, rfl, rfl⟩

/-- Claim C7 (confirmed): `do` evaluates all step expressions of an iteration
against the pre-update frame before any variable is reassigned, so the swap
`(do ((a 1 b) (b 2 a)) …)` yields `a = 2, b = 1` after one iteration. -/
theorem do_parallel_step_swap :
    runProgram 1000 "(do ((a 1 b) (b 2 a)) ((= a 2) (print a) (print b)))" =
      .ok "2\n1" := rfl

/-- Claim C8 (confirmed): the recursive `factorial` program (exactly the
catalogue text) evaluates successfully with output `120` — the `defun`ed name
is callable from its own body, and `print` renders the numeric result as the
single line `120`. -/
theorem factorial_program :
    runProgram 1000
      "(defun factorial (n)\n  (if (= n 0)\n      1\n      (* n (factorial (- n 1)))))\n\n(print (factorial 5))" =
      .ok "120" := rfl

/-- Claim C9 (confirmed): `car` of the empty list raises, the raise is
wrapped as `Error in procedure car: …` at the application site, so the error
surfaced for `(car (list))` has a message containing `car`, and the run
yields an error, not an output string. -/
theorem car_empty_list_error :
    runProgram 1000 "(car (list))" =
      .error "Error in procedure car: car: Empty list" := rfl

/-- Claim C10 (confirmed): calling a user-defined function with too few
arguments raises no arity error — parameter binding succeeds for EVERY
argument count whenever the declared parameters are symbols (first conjunct),
binding each missing parameter to Null; the runs show a missing parameter
printing as `NIL`, surplus arguments being ignored for `defun`, and the same
for `lambda`. -/
theorem missing_args_bound_null :
    (∀ (tag : String) (lref : Nat) (params : List Value) (st : State)
       (args : List Value),
        (∀ p ∈ params, ∃ s, p = Value.str s) →
        ∃ st', bindParamsG tag st lref params args = .ok st') ∧
    runProgram 1000 "(defun f (a b) (print b)) (f 1)" = .ok "NIL" ∧
    runProgram 1000 "(defun f (a b) (print b)) (f 1 2 3)" = .ok "2" ∧
    runProgram 1000 "((lambda (x) (print x)) 1 2)" = .ok "1" := by
  refine ⟨?_, rfl, rfl, rfl⟩
  intro tag lref params
  induction params with
  | nil => intro st args _; exact ⟨st, rfl⟩
  | cons p ps ih =>
      intro st args h
      obtain ⟨s, hs⟩ := h p (List.mem_cons_self p ps)
      subst hs
      simp only [bindParamsG]
      exact ih (setVar st lref s (args.headD .null)) args.tail
        (fun q hq => h q (List.mem_cons_of_mem _ hq))

/-- Witness for C10: instantiating the universal conjunct of
`missing_args_bound_null` for a one-symbol parameter list applied to zero
arguments. -/
theorem missing_args_bound_null_witness :
    ∃ st', bindParamsG "defun" initState 1 [Value.str "a"] [] = .ok st' :=
  missing_args_bound_null.1 "defun" 1 [Value.str "a"] initState []
    (fun p hp => by
      simp only [List.mem_singleton] at hp
      exact ⟨"a", hp⟩)
